import Mathlib

/-!
Verification development for the multipart-upload storage adapter in
guillotina_s3storage/storage.py.

The Python source is shallowly embedded: pure computations become Lean
functions, remote object-store interactions become oracle functions passed
in as parameters, and the sequence of remote calls an operation issues is
returned as an explicit trace.  Exceptions become explicit error values.
-/

set_option linter.unusedVariables false

namespace S3Retry

/--
Python exception taxonomy as it matters to the retry decorators in
storage.py.  RETRIABLE_EXCEPTIONS (storage.py lines 48-52) is the tuple
(botocore.exceptions.ClientError, aiohttp ClientPayloadError,
botocore.exceptions.BotoCoreError).  A botocore ClientError carries the
service error code of the failed response: missing-key errors ("404",
"NoSuchKey" -- the codes storage.py itself treats as not-found in exists,
line 267), "AccessDenied", "412"/precondition errors and throttling errors
are all raised as ClientError instances.  Exceptions outside the tuple are
modelled by the constructor other.
-/
inductive PyExc
  | clientError (code : String)
  | clientPayloadError
  | botoCoreError
  | other (name : String)
deriving DecidableEq, Repr

/-- Class test performed by the backoff decorator: membership of the raised
exception in the RETRIABLE_EXCEPTIONS tuple. -/
def isRetriable : PyExc → Bool
  | PyExc.clientError _ => true
  | PyExc.clientPayloadError => true
  | PyExc.botoCoreError => true
  | PyExc.other _ => false

/-- The not-found error as botocore raises it: a ClientError whose response
error code is "404" (storage.py line 267 classifies "404"/"NoSuchKey"). -/
def notFoundError : PyExc := PyExc.clientError "404"

/-- Result of one attempt of a remote call: a normal return or a raised
exception. -/
inductive Outcome (α : Type)
  | ok (a : α)
  | exn (e : PyExc)
deriving DecidableEq, Repr

variable {α : Type}

/--
Semantics of the backoff.on_exception decorator: f gives the outcome of
each attempt (indexed from 0); the second argument is the number of
retries still allowed after the current attempt.  An attempt that raises a
retryable exception is retried while retries remain; once retries are
exhausted the last exception is re-raised unchanged; an exception outside
the retryable tuple propagates at once.  The returned Nat counts how many
times the wrapped operation was invoked.
-/
def backoffRun (f : Nat → Outcome α) : Nat → Nat → Outcome α × Nat
  | i, 0 => (f i, 1)
  | i, Nat.succ n =>
    match f i with
    | Outcome.ok a => (Outcome.ok a, 1)
    | Outcome.exn e =>
      if isRetriable e then
        let r := backoffRun f (i + 1) n
        (r.1, r.2 + 1)
      else (Outcome.exn e, 1)

/-- backoff.on_exception(backoff.expo, RETRIABLE_EXCEPTIONS, max_tries=n):
at most n invocations of the wrapped operation. -/
def backoffOnException (f : Nat → Outcome α) (maxTries : Nat) : Outcome α × Nat :=
  backoffRun f 0 (maxTries - 1)

/-- _download (storage.py line 100): decorated with max_tries=3. -/
def download_calls (f : Nat → Outcome α) : Outcome α × Nat :=
  backoffOnException f 3

/-- _create_multipart (storage.py line 177): decorated with max_tries=3. -/
def create_multipart_calls (f : Nat → Outcome α) : Outcome α × Nat :=
  backoffOnException f 3

/-- _upload_part (storage.py line 197): decorated with max_tries=3. -/
def upload_part_calls (f : Nat → Outcome α) : Outcome α × Nat :=
  backoffOnException f 3

/-- _complete_multipart_upload (storage.py line 232): decorated with
max_tries=3. -/
def complete_multipart_calls (f : Nat → Outcome α) : Outcome α × Nat :=
  backoffOnException f 3

/-- _abort_multipart (storage.py lines 147-158): carries no backoff
decorator; the body is a try/except Exception block that logs and swallows
every failure, so the remote abort call is attempted exactly once and the
method always returns normally. -/
def abort_multipart_calls (f : Nat → Outcome Unit) : Outcome Unit × Nat :=
  match f 0 with
  | Outcome.ok _ => (Outcome.ok (), 1)
  | Outcome.exn _ => (Outcome.ok (), 1)

/-- delete_upload (storage.py lines 134-145): no backoff decorator; a
single delete_object call whose ClientError failures are logged and
swallowed; other exceptions propagate. -/
def delete_upload_calls (f : Nat → Outcome Unit) : Outcome Unit × Nat :=
  match f 0 with
  | Outcome.ok _ => (Outcome.ok (), 1)
  | Outcome.exn (PyExc.clientError c) => (Outcome.ok (), 1)
  | Outcome.exn e => (Outcome.exn e, 1)

/-- Listing calls (iterate_bucket, iterate_bucket_page, get_blobs): no
backoff decorator, a single invocation whose outcome propagates. -/
def list_objects_calls (f : Nat → Outcome α) : Outcome α × Nat :=
  (f 0, 1)

/-- delete_blobs (storage.py lines 477-499): no backoff decorator, a
single delete_objects invocation whose outcome propagates. -/
def delete_objects_calls (f : Nat → Outcome α) : Outcome α × Nat :=
  (f 0, 1)

/-- If every attempt raises a retryable exception, a backoff run with n
retries remaining performs n + 1 invocations and re-raises the exception
of the last attempt. -/
theorem backoffRun_retriable (f : Nat → Outcome α) (e : Nat → PyExc)
    (hf : ∀ i, f i = Outcome.exn (e i)) (hr : ∀ i, isRetriable (e i) = true) :
    ∀ n i, backoffRun f i n = (Outcome.exn (e (i + n)), n + 1) := by
  intro n
  induction n with
  | zero =>
    intro i
    simp [backoffRun, hf i]
  | succ n ih =>
    intro i
    have h1 : i + 1 + n = i + (n + 1) := by omega
    simp only [backoffRun, hf i, hr i, if_true, ih (i + 1), h1]

/-- With max_tries = 3 and every attempt failing retryably, the wrapped
operation is invoked exactly 3 times and the error of attempt 2 (the
third attempt) is surfaced unchanged. -/
theorem backoffOnException_retriable (f : Nat → Outcome α) (e : Nat → PyExc)
    (hf : ∀ i, f i = Outcome.exn (e i)) (hr : ∀ i, isRetriable (e i) = true) :
    backoffOnException f 3 = (Outcome.exn (e 2), 3) := by
  have h := backoffRun_retriable f e hf hr 2 0
  simpa [backoffOnException] using h

/-- An exception outside RETRIABLE_EXCEPTIONS on the first attempt
propagates immediately: one invocation only. -/
theorem backoffOnException_fatal (f : Nat → Outcome α) (e0 : PyExc)
    (h0 : f 0 = Outcome.exn e0) (hnr : isRetriable e0 = false) :
    backoffOnException f 3 = (Outcome.exn e0, 1) := by
  simp [backoffOnException, backoffRun, h0, hnr]

end S3Retry

open S3Retry

/-- Claim C1 counterexample: the claim states that a not-found error is
non-retryable and makes the wrapped call (here _download) run exactly once.
In the code, a not-found failure is a botocore ClientError, which is a
member of RETRIABLE_EXCEPTIONS, so _download invokes the underlying call
3 times on persistent not-found errors, not once. -/
theorem claim_C1_counterexample :
    isRetriable notFoundError = true ∧
    download_calls (fun _ => (Outcome.exn notFoundError : Outcome Unit)) =
      (Outcome.exn notFoundError, 3) ∧
    (download_calls (fun _ => (Outcome.exn notFoundError : Outcome Unit))).2 ≠ 1 := by
  refine ⟨rfl, rfl, by decide⟩

/-- Claim C1 (amended): for every operation wrapped by the retry policy
(_download, _create_multipart, _upload_part, _complete_multipart_upload),
if every attempt fails with an exception in RETRIABLE_EXCEPTIONS the
underlying call is invoked exactly 3 times and the last error propagates
unchanged; if an attempt fails with an exception outside
RETRIABLE_EXCEPTIONS the call is invoked exactly once and the error
propagates immediately.  Service errors such as not-found, access-denied
and precondition-failed are botocore ClientErrors, hence inside
RETRIABLE_EXCEPTIONS and retried, contrary to the original claim. -/
theorem claim_C1_amended {α : Type} (f : Nat → Outcome α) (e : Nat → PyExc) :
    ((∀ i, f i = Outcome.exn (e i)) → (∀ i, isRetriable (e i) = true) →
      download_calls f = (Outcome.exn (e 2), 3) ∧
      create_multipart_calls f = (Outcome.exn (e 2), 3) ∧
      upload_part_calls f = (Outcome.exn (e 2), 3) ∧
      complete_multipart_calls f = (Outcome.exn (e 2), 3)) ∧
    (∀ e0, f 0 = Outcome.exn e0 → isRetriable e0 = false →
      download_calls f = (Outcome.exn e0, 1) ∧
      create_multipart_calls f = (Outcome.exn e0, 1) ∧
      upload_part_calls f = (Outcome.exn e0, 1) ∧
      complete_multipart_calls f = (Outcome.exn e0, 1)) := by
  constructor
  · intro hf hr
    have h := backoffOnException_retriable f e hf hr
    exact ⟨h, h, h, h⟩
  · intro e0 h0 hnr
    have h := backoffOnException_fatal f e0 h0 hnr
    exact ⟨h, h, h, h⟩

/-- Claim C1 witness: the amended theorem applied at a concrete retryable
error (BotoCoreError on every attempt) and at a concrete non-retryable
error (a Python KeyError, outside RETRIABLE_EXCEPTIONS). -/
theorem claim_C1_witness :
    download_calls (fun _ => (Outcome.exn PyExc.botoCoreError : Outcome Unit)) =
      (Outcome.exn PyExc.botoCoreError, 3) ∧
    download_calls (fun _ => (Outcome.exn (PyExc.other "KeyError") : Outcome Unit)) =
      (Outcome.exn (PyExc.other "KeyError"), 1) :=
  ⟨((claim_C1_amended (fun _ => (Outcome.exn PyExc.botoCoreError : Outcome Unit))
      (fun _ => PyExc.botoCoreError)).1 (fun i => rfl) (fun i => rfl)).1,
   ((claim_C1_amended (fun _ => (Outcome.exn (PyExc.other "KeyError") : Outcome Unit))
      (fun _ => PyExc.other "KeyError")).2 (PyExc.other "KeyError") rfl rfl).1⟩

/-- Claim C5 counterexample: the claim states that the retry wrapper is
applied uniformly to all four multipart operations including abort.  In
the code _abort_multipart carries no backoff decorator: on a persistent
retryable failure it invokes the remote abort exactly once (and swallows
the error), whereas the wrapped operations invoke theirs 3 times. -/
theorem claim_C5_counterexample :
    abort_multipart_calls (fun _ => Outcome.exn PyExc.botoCoreError) =
      (Outcome.ok (), 1) ∧
    (abort_multipart_calls (fun _ => Outcome.exn PyExc.botoCoreError)).2 ≠ 3 ∧
    (create_multipart_calls (fun _ => (Outcome.exn PyExc.botoCoreError : Outcome Unit))).2 = 3 := by
  refine ⟨rfl, by decide, rfl⟩

/-- Claim C5 (amended): the retry wrapper is applied to multipart-upload
creation, part upload, multipart-upload completion (and download) -- each
invoking 3 times under persistent retryable failure -- but not to
multipart-upload abort, which performs a single best-effort attempt and
swallows every error; nor to listing or object deletion, which perform a
single invocation. -/
theorem claim_C5_amended (e : Nat → PyExc) (f : Nat → Outcome Unit)
    (hf : ∀ i, f i = Outcome.exn (e i)) (hr : ∀ i, isRetriable (e i) = true) :
    (create_multipart_calls f).2 = 3 ∧
    (upload_part_calls f).2 = 3 ∧
    (complete_multipart_calls f).2 = 3 ∧
    (download_calls f).2 = 3 ∧
    abort_multipart_calls f = (Outcome.ok (), 1) ∧
    (delete_upload_calls f).2 = 1 ∧
    list_objects_calls f = (f 0, 1) ∧
    delete_objects_calls f = (f 0, 1) := by
  have h := backoffOnException_retriable f e hf hr
  refine ⟨?_, ?_, ?_, ?_, ?_, ?_, rfl, rfl⟩
  · simp [create_multipart_calls, h]
  · simp [upload_part_calls, h]
  · simp [complete_multipart_calls, h]
  · simp [download_calls, h]
  · simp [abort_multipart_calls, hf 0]
  · have hr0 := hr 0
    cases he : e 0 with
    | clientError c => simp [delete_upload_calls, hf 0, he]
    | clientPayloadError => simp [delete_upload_calls, hf 0, he]
    | botoCoreError => simp [delete_upload_calls, hf 0, he]
    | other n =>
      rw [he] at hr0
      simp [isRetriable] at hr0

/-- Claim C5 witness: the amended theorem at the concrete oracle that
raises BotoCoreError on every attempt. -/
theorem claim_C5_witness :
    (create_multipart_calls (fun _ => (Outcome.exn PyExc.botoCoreError : Outcome Unit))).2 = 3 ∧
    abort_multipart_calls (fun _ => Outcome.exn PyExc.botoCoreError) = (Outcome.ok (), 1) :=
  ⟨(claim_C5_amended (fun _ => PyExc.botoCoreError)
      (fun _ => Outcome.exn PyExc.botoCoreError) (fun i => rfl) (fun i => rfl)).1,
   (claim_C5_amended (fun _ => PyExc.botoCoreError)
      (fun _ => Outcome.exn PyExc.botoCoreError) (fun i => rfl) (fun i => rfl)).2.2.2.2.1⟩

namespace S3Mgr

/-- Outcome of the remote abort_multipart_upload call: either it succeeds
or it raises (any exception). -/
inductive AbortOutcome
  | ok
  | raised
deriving DecidableEq, Repr

/-- One remote object-store call issued by S3FileStorageManager, with the
arguments the source passes.  Part bodies are byte lists; the parts list of
a completion call is the Parts value of the _multipart dict: pairs of
PartNumber and ETag. -/
inductive S3Call
  | abortMultipartUpload (bucket key uploadId : String)
  | createMultipartUpload (bucket key : String)
  | uploadPart (bucket key : String) (partNumber : Nat) (uploadId : String) (body : List Nat)
  | completeMultipartUpload (bucket key uploadId : String) (parts : List (Nat × String))
  | deleteObject (bucket key : String)
deriving DecidableEq, Repr

/-- The remote store as an oracle for the successful responses of the
multipart calls (create_multipart_upload returns an UploadId, upload_part
returns an ETag) and for whether abort_multipart_upload raises. -/
structure Store where
  createUploadId : String → String → String
  uploadPartETag : String → String → Nat → String → List Nat → String
  abortOutcome : String → String → String → AbortOutcome

/-- The dm (data manager) fields storage.py keeps for an upload session.
Field names drop the leading underscore of the Python keys.  mpu holds the
UploadId of the create_multipart_upload response, multipart holds the
Parts list of the _multipart dict, block is the next part number. -/
structure DMState where
  bucket_name : Option String := none
  upload_file_id : Option String := none
  mpu : Option String := none
  multipart : Option (List (Nat × String)) := none
  block : Option Nat := none
  uri : Option String := none
deriving DecidableEq, Repr

/-- _abort_multipart (storage.py lines 147-158): issues one
abort_multipart_upload call with the values held in dm, and swallows any
exception (try/except Exception: log.warn), leaving dm untouched either
way.  The fields are set on every path the source exercises; a missing
field would make the Python subscript raise, which no claim reaches. -/
def abort_multipart (store : Store) (dm : DMState) : DMState × List S3Call :=
  let b := dm.bucket_name.getD ""
  let k := dm.upload_file_id.getD ""
  let u := dm.mpu.getD ""
  match store.abortOutcome b k u with
  | AbortOutcome.ok => (dm, [S3Call.abortMultipartUpload b k u])
  | AbortOutcome.raised => (dm, [S3Call.abortMultipartUpload b k u])

/-- start (storage.py lines 160-175): if dm already records an upload file
id and an mpu, first abort the stale upload (best effort); then reset the
session fields and request a new multipart upload.  The resolved bucket
name and the generated key are parameters (get_bucket_name and
generate_key are external to the session logic). -/
def start (store : Store) (dm : DMState) (bucket_name upload_id : String) :
    DMState × List S3Call :=
  let abortCalls :=
    match dm.upload_file_id with
    | none => []
    | some _ =>
      match dm.mpu with
      | none => []
      | some _ => (abort_multipart store dm).2
  let mpuId := store.createUploadId bucket_name upload_id
  ({ bucket_name := some bucket_name,
     upload_file_id := some upload_id,
     mpu := some mpuId,
     multipart := some [],
     block := some 1,
     uri := dm.uri },
   abortCalls ++ [S3Call.createMultipartUpload bucket_name upload_id])

/-- One chunk step of append (storage.py lines 187-194), also reused by
the zero-length branch of _complete_multipart_upload (lines 237-243),
whose statements are identical: upload the chunk as the part numbered by
the current block, append (PartNumber, ETag) to the Parts list, increment
block. -/
def appendChunk (store : Store) (dm : DMState) (chunk : List Nat) : DMState × S3Call :=
  let b := dm.bucket_name.getD ""
  let k := dm.upload_file_id.getD ""
  let pn := dm.block.getD 0
  let u := dm.mpu.getD ""
  let etag := store.uploadPartETag b k pn u chunk
  ({ dm with
      multipart := some (dm.multipart.getD [] ++ [(pn, etag)]),
      block := some (pn + 1) },
   S3Call.uploadPart b k pn u chunk)

/-- append (storage.py lines 185-195): consume the chunks in order,
uploading each as one part and recording it; return the total byte count
consumed. -/
def append (store : Store) (dm : DMState) (chunks : List (List Nat)) :
    DMState × Nat × List S3Call :=
  match chunks with
  | [] => (dm, 0, [])
  | c :: rest =>
    let step := appendChunk store dm c
    let r := append store step.1 rest
    (r.1, c.length + r.2.1, step.2 :: r.2.2)

/-- _complete_multipart_upload (storage.py lines 232-250): if block is 1
(no part was ever uploaded), first upload one empty-body part and record
it; then issue complete_multipart_upload listing the recorded Parts. -/
def complete_multipart_upload (store : Store) (dm : DMState) : DMState × List S3Call :=
  let zero := dm.block = some 1
  let step :=
    if dm.block = some 1 then
      let s := appendChunk store dm []
      (s.1, [s.2])
    else (dm, [])
  let dm1 := step.1
  (dm1,
   step.2 ++
     [S3Call.completeMultipartUpload (dm1.bucket_name.getD "") (dm1.upload_file_id.getD "")
        (dm1.mpu.getD "") (dm1.multipart.getD [])])

/-- finish (storage.py lines 209-230): optionally delete the previous
uploaded object (existingUri is the uri of the field value when
_is_uploaded_file holds, shouldClean the cleanup-policy answer; the delete
goes to the resolver bucket), then, when an mpu is recorded, complete the
multipart upload; finally set uri to the upload file id and clear the
session fields. -/
def finish (store : Store) (existingUri : Option String) (shouldClean : Bool)
    (resolverBucket : String) (dm : DMState) : DMState × List S3Call :=
  let cleanupCalls :=
    match existingUri with
    | some fileUri => if shouldClean then [S3Call.deleteObject resolverBucket fileUri] else []
    | none => []
  let step :=
    match dm.mpu with
    | some _ => complete_multipart_upload store dm
    | none => (dm, [])
  let dm1 := step.1
  ({ dm1 with
      uri := dm1.upload_file_id,
      multipart := none,
      mpu := none,
      block := none,
      upload_file_id := none },
   cleanupCalls ++ step.2)

/-- The parts lists submitted by the completion calls of a trace, in
order. -/
def completed_part_lists : List S3Call → List (List (Nat × String))
  | [] => []
  | S3Call.completeMultipartUpload _ _ _ ps :: rest => ps :: completed_part_lists rest
  | _ :: rest => completed_part_lists rest

/-- Bytes a single call uploads into the object: the body length of an
uploadPart call, 0 for every other call. -/
def callUploadSize : S3Call → Nat
  | S3Call.uploadPart _ _ _ _ body => body.length
  | _ => 0

/-- Total bytes uploaded into the object across a trace. -/
def uploaded_bytes (calls : List S3Call) : Nat :=
  (calls.map callUploadSize).sum

/-- The parts a run of append records, in closed form: part numbers
counting up from the starting block value, each paired with the ETag the
store returns for that part upload. -/
def recordedParts (store : Store) (b k u : String) (m : Nat) (chunks : List (List Nat)) :
    List (Nat × String) :=
  List.zipWith (fun pn c => (pn, store.uploadPartETag b k pn u c))
    (List.range' m chunks.length) chunks

/-- The uploadPart calls a run of append issues, in closed form. -/
def appendCalls (store : Store) (b k u : String) (m : Nat) (chunks : List (List Nat)) :
    List S3Call :=
  List.zipWith (fun pn c => S3Call.uploadPart b k pn u c)
    (List.range' m chunks.length) chunks

/-- Closed form of append on a session whose fields are all set: the
Parts list grows by one entry per chunk with consecutive part numbers, the
block counter advances by the number of chunks, the byte count is the sum
of the chunk lengths. -/
theorem append_closed_form (store : Store) (b k u : String) (uri0 : Option String) :
    ∀ (chunks : List (List Nat)) (ps : List (Nat × String)) (m : Nat),
      append store
        { bucket_name := some b, upload_file_id := some k, mpu := some u,
          multipart := some ps, block := some m, uri := uri0 } chunks =
      ({ bucket_name := some b, upload_file_id := some k, mpu := some u,
         multipart := some (ps ++ recordedParts store b k u m chunks),
         block := some (m + chunks.length), uri := uri0 },
       (chunks.map List.length).sum,
       appendCalls store b k u m chunks) := by
  intro chunks
  induction chunks with
  | nil =>
    intro ps m
    simp [append, recordedParts, appendCalls]
  | cons c rest ih =>
    intro ps m
    rw [append]
    simp only [appendChunk, Option.getD_some]
    rw [ih (ps ++ [(m, store.uploadPartETag b k m u c)]) (m + 1)]
    have hb : m + 1 + rest.length = m + (rest.length + 1) := by omega
    simp only [recordedParts, appendCalls, List.length_cons, List.range'_succ,
      List.zipWith_cons_cons, List.map_cons, List.sum_cons, hb,
      List.append_assoc, List.singleton_append]

/-- abort_multipart always returns the unchanged dm and the single abort
call, whether or not the remote abort raises. -/
theorem abort_multipart_eq (store : Store) (dm : DMState) :
    abort_multipart store dm =
      (dm, [S3Call.abortMultipartUpload (dm.bucket_name.getD "")
              (dm.upload_file_id.getD "") (dm.mpu.getD "")]) := by
  simp only [abort_multipart]
  cases store.abortOutcome (dm.bucket_name.getD "") (dm.upload_file_id.getD "")
      (dm.mpu.getD "") <;> rfl

/-- The state component produced by start. -/
theorem start_state (store : Store) (dm : DMState) (b k : String) :
    (start store dm b k).1 =
      { bucket_name := some b, upload_file_id := some k,
        mpu := some (store.createUploadId b k), multipart := some [],
        block := some 1, uri := dm.uri } := by
  simp [start]

/-- A start never uploads bytes: its trace holds at most an abort call and
one create call. -/
theorem uploaded_bytes_start (store : Store) (dm : DMState) (b k : String) :
    uploaded_bytes (start store dm b k).2 = 0 := by
  rcases h1 : dm.upload_file_id with _ | k0
  · simp [start, h1, uploaded_bytes, callUploadSize]
  · rcases h2 : dm.mpu with _ | u0
    · simp [start, h1, h2, uploaded_bytes, callUploadSize]
    · simp [start, h1, h2, abort_multipart_eq, uploaded_bytes, callUploadSize]

/-- Part numbers recorded by a run of append count up from the starting
block value with no gaps. -/
theorem recordedParts_map_fst (store : Store) (b k u : String) :
    ∀ (chunks : List (List Nat)) (m : Nat),
      (recordedParts store b k u m chunks).map Prod.fst = List.range' m chunks.length := by
  intro chunks
  induction chunks with
  | nil => intro m; simp [recordedParts]
  | cons c rest ih =>
    intro m
    have h := ih (m + 1)
    simp only [recordedParts, List.length_cons, List.range'_succ,
      List.zipWith_cons_cons, List.map_cons] at h ⊢
    rw [h]

/-- One recorded part per chunk. -/
theorem recordedParts_length (store : Store) (b k u : String)
    (chunks : List (List Nat)) (m : Nat) :
    (recordedParts store b k u m chunks).length = chunks.length := by
  simp [recordedParts]

/-- When the session holds an mpu and its block counter is not 1, finish
issues exactly one completion call and submits the recorded Parts list
as it stands. -/
theorem completed_part_lists_finish (store : Store) (ex : Option String) (sc : Bool)
    (rb : String) (dm : DMState) (u : String)
    (hm : dm.mpu = some u) (hb : ¬dm.block = some 1) :
    completed_part_lists (finish store ex sc rb dm).2 = [dm.multipart.getD []] := by
  rcases ex with _ | f
  · simp [finish, hm, complete_multipart_upload, hb, completed_part_lists]
  · cases sc
    · simp [finish, hm, complete_multipart_upload, hb, completed_part_lists]
    · simp [finish, hm, complete_multipart_upload, hb, completed_part_lists]

/-- The concrete oracle used by witnesses and counterexamples. -/
def cStore : Store where
  createUploadId := fun _ _ => "UPLOAD1"
  uploadPartETag := fun _ _ pn _ _ => "ETAG" ++ toString pn
  abortOutcome := fun _ _ _ => AbortOutcome.raised

/-- A concrete session already holding an open multipart upload. -/
def cDMStale : DMState :=
  { bucket_name := some "B0", upload_file_id := some "K0", mpu := some "U0" }

end S3Mgr

open S3Mgr

/-- Claim C2 counterexample: with N = 0 append calls after start, the
recorded parts list is empty, yet finish does not submit that empty list:
the zero-length branch first uploads an empty part numbered 1 and submits
the one-element list, so the submitted list differs from the list recorded
by the appends. -/
theorem claim_C2_counterexample :
    ((start cStore {} "bkt" "key").1).multipart = some [] ∧
    completed_part_lists
        (finish cStore none false "bkt" ((start cStore {} "bkt" "key").1)).2 =
      [[(1, cStore.uploadPartETag "bkt" "key" 1 "UPLOAD1" [])]] ∧
    [[(1, cStore.uploadPartETag "bkt" "key" 1 "UPLOAD1" [])]] ≠
      ([[]] : List (List (Nat × String))) := by
  refine ⟨rfl, rfl, by simp⟩

/-- Claim C2 (amended): for every upload session after start followed by
N ≥ 1 successful single-chunk part uploads via append, the recorded parts
list has length nextPartNumber - 1 = N, its part numbers are exactly
1..N strictly increasing with no gaps, each paired with the ETag returned
by its part upload, and finish submits exactly this list, in ascending
partNumber order, to the completion call.  (For N = 0 the zero-length
branch of the completion instead submits one freshly uploaded empty part,
see claim C3.) -/
theorem claim_C2_amended (store : Store) (dmP : DMState) (b k : String)
    (chunks : List (List Nat)) (hne : chunks ≠ [])
    (existingUri : Option String) (sc : Bool) (rb : String) :
    (append store (start store dmP b k).1 chunks).1.multipart =
      some (recordedParts store b k (store.createUploadId b k) 1 chunks) ∧
    (append store (start store dmP b k).1 chunks).1.block = some (chunks.length + 1) ∧
    (recordedParts store b k (store.createUploadId b k) 1 chunks).map Prod.fst =
      List.range' 1 chunks.length ∧
    (recordedParts store b k (store.createUploadId b k) 1 chunks).length = chunks.length ∧
    completed_part_lists
        (finish store existingUri sc rb
          (append store (start store dmP b k).1 chunks).1).2 =
      [recordedParts store b k (store.createUploadId b k) 1 chunks] := by
  have hlen : 1 ≤ chunks.length := by
    cases chunks with
    | nil => exact absurd rfl hne
    | cons c r => simp
  have happ := append_closed_form store b k (store.createUploadId b k) dmP.uri chunks [] 1
  rw [start_state, happ]
  refine ⟨by simp, by simp [Nat.add_comm], recordedParts_map_fst store b k _ chunks 1,
    recordedParts_length store b k _ chunks 1, ?_⟩
  have hb2 : ¬(some (1 + chunks.length) = (some 1 : Option Nat)) := by
    simp only [Option.some.injEq]
    omega
  rw [completed_part_lists_finish store existingUri sc rb _ (store.createUploadId b k) rfl hb2]
  simp

/-- Claim C2 witness: the amended theorem at a concrete store, a fresh
session and the two-chunk input [[7], [8, 9]]. -/
theorem claim_C2_witness :
    (append cStore (start cStore {} "bkt" "key").1 [[7], [8, 9]]).1.multipart =
      some (recordedParts cStore "bkt" "key" (cStore.createUploadId "bkt" "key") 1 [[7], [8, 9]]) ∧
    (append cStore (start cStore {} "bkt" "key").1 [[7], [8, 9]]).1.block = some ([[7], [8, 9]].length + 1) ∧
    (recordedParts cStore "bkt" "key" (cStore.createUploadId "bkt" "key") 1 [[7], [8, 9]]).map Prod.fst =
      List.range' 1 [[7], [8, 9]].length ∧
    (recordedParts cStore "bkt" "key" (cStore.createUploadId "bkt" "key") 1 [[7], [8, 9]]).length =
      [[7], [8, 9]].length ∧
    completed_part_lists
        (finish cStore none false "bkt"
          (append cStore (start cStore {} "bkt" "key").1 [[7], [8, 9]]).1).2 =
      [recordedParts cStore "bkt" "key" (cStore.createUploadId "bkt" "key") 1 [[7], [8, 9]]] :=
  claim_C2_amended cStore {} "bkt" "key" [[7], [8, 9]] (by simp) none false "bkt"

/-- Claim C3: finishing a session right after start (block still 1, no
append ever ran) uploads exactly one empty-body part numbered 1 before the
completion call, the completion call lists exactly that one part, and the
total bytes uploaded for the object are 0. -/
theorem claim_C3 (store : Store) (dmP : DMState) (b k : String) (sc : Bool) :
    ((start store dmP b k).1).block = some 1 ∧
    (finish store none sc b ((start store dmP b k).1)).2 =
      [S3Call.uploadPart b k 1 (store.createUploadId b k) [],
       S3Call.completeMultipartUpload b k (store.createUploadId b k)
         [(1, store.uploadPartETag b k 1 (store.createUploadId b k) [])]] ∧
    uploaded_bytes ((start store dmP b k).2 ++
        (finish store none sc b ((start store dmP b k).1)).2) = 0 := by
  rw [start_state]
  have hfin : (finish store none sc b
      { bucket_name := some b, upload_file_id := some k,
        mpu := some (store.createUploadId b k), multipart := some [],
        block := some 1, uri := dmP.uri }).2 =
      [S3Call.uploadPart b k 1 (store.createUploadId b k) [],
       S3Call.completeMultipartUpload b k (store.createUploadId b k)
         [(1, store.uploadPartETag b k 1 (store.createUploadId b k) [])]] := by
    simp [finish, complete_multipart_upload, appendChunk]
  refine ⟨rfl, hfin, ?_⟩
  rw [hfin]
  have h0 := uploaded_bytes_start store dmP b k
  simp only [uploaded_bytes, List.map_append, List.sum_append] at h0 ⊢
  rw [h0]
  simp [callUploadSize]

/-- Claim C4: starting a session that already records an upload file id
and a multipart upload id first issues an abort with the old upload id,
strictly before the create call for the new multipart upload; the abort is
best effort -- whatever the remote abort outcome, start behaves
identically. -/
theorem claim_C4 (store : Store) (dm : DMState) (b k b0 k0 u0 : String)
    (hb : dm.bucket_name = some b0) (hk : dm.upload_file_id = some k0)
    (hu : dm.mpu = some u0) :
    (start store dm b k).2 =
      [S3Call.abortMultipartUpload b0 k0 u0, S3Call.createMultipartUpload b k] ∧
    ∀ g : String → String → String → AbortOutcome,
      start { store with abortOutcome := g } dm b k = start store dm b k := by
  constructor
  · simp [start, hb, hk, hu, abort_multipart_eq]
  · intro g
    simp [start, hk, hu, abort_multipart_eq]

/-- Claim C4 witness: the theorem at a concrete stale session, with an
abort outcome oracle that raises. -/
theorem claim_C4_witness :
    (start cStore cDMStale "bkt2" "key2").2 =
      [S3Call.abortMultipartUpload "B0" "K0" "U0",
       S3Call.createMultipartUpload "bkt2" "key2"] ∧
    start { cStore with abortOutcome := fun _ _ _ => AbortOutcome.ok } cDMStale "bkt2" "key2" =
      start cStore cDMStale "bkt2" "key2" :=
  ⟨(claim_C4 cStore cDMStale "bkt2" "key2" "B0" "K0" "U0" rfl rfl rfl).1,
   (claim_C4 cStore cDMStale "bkt2" "key2" "B0" "K0" "U0" rfl rfl rfl).2
     (fun _ _ _ => AbortOutcome.ok)⟩

namespace S3BS

/-- One placeholder or literal piece of the bucket_name_format template
string (default "{container}{delimiter}{base}", storage.py lines
328-330); rendering a piece list is Python str.format restricted to these
three recognised fields. -/
inductive TemplatePiece
  | lit (s : String)
  | container
  | delim
  | base
deriving DecidableEq, Repr

/-- str.format over the recognised placeholders. -/
def renderFormat : List TemplatePiece → String → String → String → String
  | [], _, _, _ => ""
  | TemplatePiece.lit s :: rest, c, d, b => s ++ renderFormat rest c d b
  | TemplatePiece.container :: rest, c, d, b => c ++ renderFormat rest c d b
  | TemplatePiece.delim :: rest, c, d, b => d ++ renderFormat rest c d b
  | TemplatePiece.base :: rest, c, d, b => b ++ renderFormat rest c d b

/-- The S3BlobStore settings that bucket resolution reads (storage.py
lines 326-331). -/
structure Settings where
  bucket : String
  bucket_name_format : List TemplatePiece :=
    [TemplatePiece.container, TemplatePiece.delim, TemplatePiece.base]
  bucket_delimiter : Option String := none
  region_name : String := ""
deriving Repr

/-- Python truthiness of an optional string: None and the empty string are
falsy. -/
def truthyStr : Option String → Bool
  | none => false
  | some s => !s.isEmpty

/-- Delimiter choice (storage.py lines 374-377): the configured delimiter
when truthy, else "." when the base bucket name holds a dot, else "-". -/
def char_delimiter (s : Settings) : String :=
  if truthyStr s.bucket_delimiter then s.bucket_delimiter.getD ""
  else if s.bucket.contains (Char.ofNat 46) then "." else "-"

/-- Bucket-name computation (storage.py lines 379-385): render the format
with the lower-cased container id, the delimiter and the base bucket, then
replace every underscore with a dash. -/
def computeBucketName (s : Settings) (containerId : String) : String :=
  (renderFormat s.bucket_name_format containerId.toLower (char_delimiter s) s.bucket).replace
    "_" "-"

/-- Result of a head_bucket call: a response carrying an HTTP status, or a
raised botocore ClientError carrying the int error code.  (The two
functions that run head_bucket catch only ClientError.) -/
inductive HeadRes
  | ok (httpStatus : Nat)
  | clientError (code : Int)
deriving DecidableEq, Repr

/-- The remote store as seen by bucket resolution. -/
structure Remote where
  headBucket : String → HeadRes

/-- Remote calls issued during bucket resolution.  createBucket carries
the optional LocationConstraint of _get_bucket_kargs. -/
inductive BucketCall
  | headBucket (bucket : String)
  | createBucket (bucket : String) (locationConstraint : Option String)
deriving DecidableEq, Repr

/-- Errors bucket resolution can raise. -/
inductive BucketErr
  | httpPreconditionFailed (reason : String)
  | s3Exception (message : String)
deriving DecidableEq, Repr

/-- _get_bucket_kargs (storage.py lines 421-427): include a
LocationConstraint exactly when the configured region is not us-east-1. -/
def bucketKargsLocation (s : Settings) : Option String :=
  if s.region_name ≠ "us-east-1" then some s.region_name else none

/-- _get_or_create_bucket (storage.py lines 341-355): head the bucket;
missing when the response status is 404 or a ClientError with int code
404 is raised (any other ClientError is caught and leaves missing False);
when missing, create the bucket.  Returns the calls issued. -/
def get_or_create_bucket (remote : Remote) (s : Settings) (bucket_name : String) :
    List BucketCall :=
  let missing :=
    match remote.headBucket bucket_name with
    | HeadRes.ok status => status == 404
    | HeadRes.clientError code => code == 404
  BucketCall.headBucket bucket_name ::
    (if missing then [BucketCall.createBucket bucket_name (bucketKargsLocation s)] else [])

/-- check_bucket_accessibility (storage.py lines 518-530): head the
bucket; a success response means accessible, a ClientError with code 404
means inaccessible, any other ClientError becomes an S3Exception. -/
def check_bucket_accessibility (remote : Remote) (bucket_name : String) :
    Except BucketErr Bool × List BucketCall :=
  (match remote.headBucket bucket_name with
   | HeadRes.ok _ => Except.ok true
   | HeadRes.clientError code =>
     if code == 404 then Except.ok false
     else Except.error (BucketErr.s3Exception "Error checking bucket accessibility"),
   [BucketCall.headBucket bucket_name])

/-- The no-override path of get_bucket_name (storage.py lines 374-393):
compute the name; return it at once when cached, otherwise run
_get_or_create_bucket and append the name to the cache.  Returns the
name, the new cache and the calls issued. -/
def resolve_no_override (remote : Remote) (s : Settings) (cache : List String)
    (containerId : String) : String × List String × List BucketCall :=
  let bucket_name := computeBucketName s containerId
  if bucket_name ∈ cache then (bucket_name, cache, [])
  else (bucket_name, cache ++ [bucket_name], get_or_create_bucket remote s bucket_name)

/-- get_bucket_name (storage.py lines 357-393): with a truthy per-tenant
override, probe its accessibility -- inaccessible raises
HTTPPreconditionFailed naming the bucket, a probe error propagates,
accessible returns the override untouched by cache or creation; without
an override, run the compute/cache/create path. -/
def get_bucket_name (remote : Remote) (s : Settings) (cache : List String)
    (containerId : String) (bucket_override : Option String) :
    Except BucketErr (String × List String) × List BucketCall :=
  if truthyStr bucket_override then
    let ov := bucket_override.getD ""
    match check_bucket_accessibility remote ov with
    | (Except.error e, calls) => (Except.error e, calls)
    | (Except.ok false, calls) =>
      (Except.error (BucketErr.httpPreconditionFailed
        ("Bucket " ++ ov ++ " is not accessible")), calls)
    | (Except.ok true, calls) => (Except.ok (ov, cache), calls)
  else
    let r := resolve_no_override remote s cache containerId
    (Except.ok (r.1, r.2.1), r.2.2)

/-- Number of createBucket calls in a trace. -/
def createBucketCalls : List BucketCall → Nat
  | [] => 0
  | BucketCall.createBucket _ _ :: rest => 1 + createBucketCalls rest
  | _ :: rest => createBucketCalls rest

/-- A get_or_create_bucket trace holds at most one creation call. -/
theorem createBucketCalls_get_or_create (remote : Remote) (s : Settings) (n : String) :
    createBucketCalls (get_or_create_bucket remote s n) ≤ 1 := by
  rw [get_or_create_bucket]
  cases remote.headBucket n with
  | ok status =>
    simp only []
    by_cases h : status == 404
    · simp [h, createBucketCalls]
    · simp [h, createBucketCalls]
  | clientError code =>
    simp only []
    by_cases h : code == 404
    · simp [h, createBucketCalls]
    · simp [h, createBucketCalls]

end S3BS

open S3BS

/-- Claim C6: with no override configured, two consecutive get_bucket_name
calls for the same container and settings succeed with the same bucket
name, issue at most one bucket-creation call in total, and the second call
hits the cache produced by the first and issues no remote call at all. -/
theorem claim_C6 (remote : Remote) (s : Settings) (cache : List String)
    (containerId : String) :
    get_bucket_name remote s cache containerId none =
      (Except.ok ((resolve_no_override remote s cache containerId).1,
        (resolve_no_override remote s cache containerId).2.1),
       (resolve_no_override remote s cache containerId).2.2) ∧
    get_bucket_name remote s (resolve_no_override remote s cache containerId).2.1
        containerId none =
      (Except.ok ((resolve_no_override remote s cache containerId).1,
        (resolve_no_override remote s cache containerId).2.1), []) ∧
    createBucketCalls ((resolve_no_override remote s cache containerId).2.2 ++ []) ≤ 1 := by
  have hsecond : resolve_no_override remote s
      (resolve_no_override remote s cache containerId).2.1 containerId =
      ((resolve_no_override remote s cache containerId).1,
       (resolve_no_override remote s cache containerId).2.1, []) := by
    rw [resolve_no_override, resolve_no_override]
    by_cases h : computeBucketName s containerId ∈ cache
    · simp [h]
    · simp [h]
  refine ⟨rfl, ?_, ?_⟩
  · show (Except.ok ((resolve_no_override remote s
        (resolve_no_override remote s cache containerId).2.1 containerId).1,
        (resolve_no_override remote s
          (resolve_no_override remote s cache containerId).2.1 containerId).2.1),
      (resolve_no_override remote s
        (resolve_no_override remote s cache containerId).2.1 containerId).2.2) = _
    rw [hsecond]
  · rw [List.append_nil, resolve_no_override]
    by_cases h : computeBucketName s containerId ∈ cache
    · simp [h, createBucketCalls]
    · simp [h, createBucketCalls_get_or_create]

/-- Claim C7: with a truthy per-tenant override configured, get_bucket_name
probes the override bucket once; when the probe reports not-found
(ClientError 404) it fails with a precondition error whose reason names the
bucket; when the probe succeeds it returns the override directly, with the
cache unchanged and no creation call. -/
theorem claim_C7 (remote : Remote) (s : Settings) (cache : List String)
    (containerId ov : String) (hov : ov ≠ "") :
    (remote.headBucket ov = HeadRes.clientError 404 →
      get_bucket_name remote s cache containerId (some ov) =
        (Except.error (BucketErr.httpPreconditionFailed
          ("Bucket " ++ ov ++ " is not accessible")),
         [BucketCall.headBucket ov])) ∧
    (∀ status, remote.headBucket ov = HeadRes.ok status →
      get_bucket_name remote s cache containerId (some ov) =
        (Except.ok (ov, cache), [BucketCall.headBucket ov])) ∧
    createBucketCalls [BucketCall.headBucket ov] = 0 := by
  have htruthy : truthyStr (some ov) = true := by
    have hne : ¬(ov.isEmpty = true) := by
      intro h
      exact hov ((String.isEmpty_iff ov).mp h)
    simp only [truthyStr, Bool.not_eq_true']
    simpa using hne
  refine ⟨?_, ?_, rfl⟩
  · intro hhead
    simp [get_bucket_name, htruthy, check_bucket_accessibility, hhead]
  · intro status hhead
    simp [get_bucket_name, htruthy, check_bucket_accessibility, hhead]

/-- Claim C7 witness: the theorem at a remote whose head_bucket reports
404 for every bucket, and at one whose head_bucket always succeeds. -/
theorem claim_C7_witness :
    get_bucket_name ⟨fun _ => HeadRes.clientError 404⟩ { bucket := "base" } []
        "tenant" (some "override-bucket") =
      (Except.error (BucketErr.httpPreconditionFailed
        ("Bucket " ++ "override-bucket" ++ " is not accessible")),
       [BucketCall.headBucket "override-bucket"]) ∧
    get_bucket_name ⟨fun _ => HeadRes.ok 200⟩ { bucket := "base" } []
        "tenant" (some "override-bucket") =
      (Except.ok ("override-bucket", []), [BucketCall.headBucket "override-bucket"]) :=
  ⟨(claim_C7 ⟨fun _ => HeadRes.clientError 404⟩ { bucket := "base" } [] "tenant"
      "override-bucket" (by decide)).1 rfl,
   ((claim_C7 ⟨fun _ => HeadRes.ok 200⟩ { bucket := "base" } [] "tenant"
      "override-bucket" (by decide)).2.1 200 rfl)⟩


namespace S3BS

/-- An entry of the Deleted or Errors arrays of a delete_objects response:
only its Key field is read. -/
structure KeyedObject where
  Key : String
deriving DecidableEq, Repr

/-- The delete_objects response fields delete_blobs reads; both arrays are
absent when empty, read with .get(field, []). -/
structure DeleteObjectsResponse where
  Deleted : Option (List KeyedObject) := none
  Errors : Option (List KeyedObject) := none
deriving DecidableEq, Repr

/-- delete_blobs (storage.py lines 477-499): one batched delete_objects
call with the given keys; the succeeded keys are the Key fields of the
Deleted entries, the failed keys the Key fields of the Errors entries;
both are returned as a plain pair -- a per-key failure never raises.  The
Nat records that exactly one remote call is issued. -/
def delete_blobs (remote : List String → DeleteObjectsResponse) (keys : List String) :
    (List String × List String) × Nat :=
  let response := remote keys
  let success_keys := (response.Deleted.getD []).map KeyedObject.Key
  let failed_keys := (response.Errors.getD []).map KeyedObject.Key
  ((success_keys, failed_keys), 1)

variable {α : Type}

/-- Pagination of list_objects as driven by the paginator in
iterate_bucket: every run fetches at least one page; a page holds up to P
items and fetching continues while items remain beyond the page just
served. -/
def paginate_list_objects (P : Nat) (objs : List α) : List (List α) :=
  if h : P = 0 ∨ objs.length ≤ P then [objs.take P]
  else objs.take P :: paginate_list_objects P (objs.drop P)
termination_by objs.length
decreasing_by
  simp only [not_or, not_le] at h
  simp only [List.length_drop]
  omega

/-- Concatenation of the yielded pages, in fetch order. -/
def joinPages : List (List α) → List α
  | [] => []
  | p :: r => p ++ joinPages r

/-- The items iterate_bucket (storage.py lines 406-419) yields: each page
contributes result.get("Contents", []), in page order. -/
def iterate_bucket_items (P : Nat) (objs : List α) : List α :=
  joinPages (paginate_list_objects P objs)

/-- Pages the paginator of iterate_bucket fetches. -/
def paginator_page_fetches (P : Nat) (objs : List α) : Nat :=
  (paginate_list_objects P objs).length

/-- Total remote listing calls of iterate_bucket: storage.py lines 410-412
issue one plain list_objects call whose result is discarded before the
paginator runs, so one call more than the page fetches. -/
def iterate_bucket_list_calls (P : Nat) (objs : List α) : Nat :=
  1 + paginator_page_fetches P objs

/-- The pages of a pagination concatenate back to the stored objects, in
order: every object is yielded exactly once. -/
theorem paginate_join (P : Nat) (hP : 0 < P) (objs : List α) :
    joinPages (paginate_list_objects P objs) = objs := by
  have main : ∀ (n : Nat) (l : List α), l.length ≤ n →
      joinPages (paginate_list_objects P l) = l := by
    intro n
    induction n with
    | zero =>
      intro l hl
      have h0 : l = [] := by
        cases l with
        | nil => rfl
        | cons a t => simp at hl
      subst h0
      rw [paginate_list_objects]
      simp [joinPages]
    | succ n ih =>
      intro l hl
      rw [paginate_list_objects]
      by_cases h : P = 0 ∨ l.length ≤ P
      · rw [dif_pos h]
        rcases h with h | h
        · exact absurd h (by omega)
        · simp [joinPages, List.take_of_length_le h]
      · rw [dif_neg h]
        simp only [not_or, not_le] at h
        have ihr := ih (l.drop P) (by simp only [List.length_drop]; omega)
        simp [joinPages, ihr, List.take_append_drop]
  exact main objs.length objs le_rfl

/-- The paginator fetches one page for an empty listing, otherwise the
ceiling of the object count over the page size. -/
theorem paginate_length (P : Nat) (hP : 0 < P) (objs : List α) :
    (paginate_list_objects P objs).length =
      if objs.length = 0 then 1 else (objs.length + P - 1) / P := by
  have main : ∀ (n : Nat) (l : List α), l.length ≤ n →
      (paginate_list_objects P l).length =
        if l.length = 0 then 1 else (l.length + P - 1) / P := by
    intro n
    induction n with
    | zero =>
      intro l hl
      have h0 : l = [] := by
        cases l with
        | nil => rfl
        | cons a t => simp at hl
      subst h0
      rw [paginate_list_objects]
      simp
    | succ n ih =>
      intro l hl
      rw [paginate_list_objects]
      by_cases h : P = 0 ∨ l.length ≤ P
      · rw [dif_pos h]
        rcases h with h | h
        · exact absurd h (by omega)
        · by_cases hz : l.length = 0
          · simp [hz]
          · have h1 : (l.length + P - 1) / P = 1 :=
              Nat.div_eq_of_lt_le (by omega) (by omega)
            simp [hz, h1]
      · rw [dif_neg h]
        simp only [not_or, not_le] at h
        have ihr := ih (l.drop P) (by simp only [List.length_drop]; omega)
        rw [List.length_cons, ihr]
        simp only [List.length_drop]
        have hz2 : ¬(l.length - P = 0) := by omega
        rw [if_neg hz2]
        have hz : ¬(l.length = 0) := by omega
        rw [if_neg hz]
        have e1 : l.length - P + P - 1 = l.length - 1 := by omega
        have e2 : l.length + P - 1 = l.length - 1 + P := by omega
        rw [e1, e2, Nat.add_div_right _ hP]
  exact main objs.length objs le_rfl

/-- One entry of the Contents array of a list_objects_v2 response, with
the fields get_blobs reads. -/
structure ListedItem where
  Key : String
  Size : Nat
  LastModified : Nat
deriving DecidableEq, Repr

/-- The list_objects_v2 response fields the listing code reads; S3 omits
the Contents key entirely on a page with no objects. -/
structure ListObjectsV2Response where
  Contents : Option (List ListedItem) := none
  NextContinuationToken : Option String := none
deriving DecidableEq, Repr

/-- The metadata record get_blobs builds per item. -/
structure BlobMetadata where
  name : String
  bucket : String
  size : Nat
  createdTime : Nat
deriving DecidableEq, Repr

/-- A failed Python dict subscript. -/
inductive PyLookupErr
  | keyError (key : String)
deriving DecidableEq, Repr

/-- The response handling of get_blobs (storage.py lines 462-475): the
subscript response["Contents"] raises KeyError when the key is absent;
otherwise each item becomes a BlobMetadata and the next page token is read
with .get, absent becoming None. -/
def get_blobs (bucket_name : String) (response : ListObjectsV2Response) :
    Except PyLookupErr (List BlobMetadata × Option String) :=
  match response.Contents with
  | none => Except.error (PyLookupErr.keyError "Contents")
  | some items =>
    Except.ok
      (items.map fun item =>
        { name := item.Key, bucket := bucket_name, size := item.Size,
          createdTime := item.LastModified },
       response.NextContinuationToken)

/-- The per-page item handling of iterate_bucket (storage.py line 418):
result.get("Contents", []) treats an absent Contents key as an empty
page. -/
def iterate_bucket_page_contents (response : ListObjectsV2Response) : List ListedItem :=
  response.Contents.getD []

end S3BS

/-- Claim C8: delete_blobs performs a single batched remote delete call
and returns the pair of succeeded and failed key lists taken from the
Deleted and Errors entries of the provider response; a per-key failure
appears in the failed list and is never raised.  In particular deleting
[A, B, C] with B reported failed returns ([A, C], [B]). -/
theorem claim_C8 (remote : List String → S3BS.DeleteObjectsResponse) (keys : List String) :
    S3BS.delete_blobs remote keys =
      ((((remote keys).Deleted.getD []).map S3BS.KeyedObject.Key,
        ((remote keys).Errors.getD []).map S3BS.KeyedObject.Key), 1) ∧
    (S3BS.delete_blobs
        (fun _ => { Deleted := some [⟨"A"⟩, ⟨"C"⟩], Errors := some [⟨"B"⟩] })
        ["A", "B", "C"]).1 = (["A", "C"], ["B"]) :=
  ⟨rfl, rfl⟩

/-- Claim C9 counterexample: the claim states the enumeration terminates
after exactly ceil(N/P) page fetches.  For an empty listing (N = 0) the
paginator still fetches one page, while ceil(0/P) = 0; moreover
iterate_bucket issues one further discarded list_objects call, 2 remote
listing calls in total. -/
theorem claim_C9_counterexample :
    S3BS.paginator_page_fetches 1000 ([] : List Nat) = 1 ∧
    S3BS.iterate_bucket_list_calls 1000 ([] : List Nat) = 2 ∧
    (([] : List Nat).length + 1000 - 1) / 1000 = 0 ∧
    S3BS.paginator_page_fetches 1000 ([] : List Nat) ≠
      (([] : List Nat).length + 1000 - 1) / 1000 := by
  have h1 : S3BS.paginate_list_objects 1000 ([] : List Nat) = [[]] := by
    rw [S3BS.paginate_list_objects]
    norm_num
  refine ⟨?_, ?_, by norm_num, ?_⟩
  · simp [S3BS.paginator_page_fetches, h1]
  · simp [S3BS.iterate_bucket_list_calls, S3BS.paginator_page_fetches, h1]
  · simp [S3BS.paginator_page_fetches, h1]

/-- Claim C9 (amended): enumerating N stored objects with page size P > 0
yields every object exactly once, in page order; the paginator performs
one page fetch when N = 0 and ceil(N/P) page fetches otherwise, and
iterate_bucket issues one additional discarded listing call on top of the
page fetches. -/
theorem claim_C9_amended {α : Type} (P : Nat) (hP : 0 < P) (objs : List α) :
    S3BS.iterate_bucket_items P objs = objs ∧
    S3BS.paginator_page_fetches P objs =
      (if objs.length = 0 then 1 else (objs.length + P - 1) / P) ∧
    S3BS.iterate_bucket_list_calls P objs =
      1 + (if objs.length = 0 then 1 else (objs.length + P - 1) / P) := by
  have h2 := S3BS.paginate_length P hP objs
  refine ⟨S3BS.paginate_join P hP objs, h2, ?_⟩
  simp only [S3BS.iterate_bucket_list_calls, S3BS.paginator_page_fetches, h2]

/-- Claim C9 witness: the amended theorem at page size 2 over three
objects: 2 page fetches, 3 listing calls, all items in order. -/
theorem claim_C9_witness :
    S3BS.iterate_bucket_items 2 [10, 20, 30] = [10, 20, 30] ∧
    S3BS.paginator_page_fetches 2 [10, 20, 30] =
      (if ([10, 20, 30] : List Nat).length = 0 then 1
       else (([10, 20, 30] : List Nat).length + 2 - 1) / 2) ∧
    S3BS.iterate_bucket_list_calls 2 [10, 20, 30] =
      1 + (if ([10, 20, 30] : List Nat).length = 0 then 1
           else (([10, 20, 30] : List Nat).length + 2 - 1) / 2) :=
  claim_C9_amended 2 (by decide) [10, 20, 30]

/-- Claim C10: on a provider page with no objects (no Contents entry),
get_blobs raises a KeyError on the Contents lookup -- it does not return
the empty item list with an absent token -- while the page handling of
iterate_bucket treats the same response as an empty page. -/
theorem claim_C10 :
    S3BS.get_blobs "bucket" { Contents := none, NextContinuationToken := none } =
      Except.error (S3BS.PyLookupErr.keyError "Contents") ∧
    S3BS.get_blobs "bucket" { Contents := none, NextContinuationToken := none } ≠
      Except.ok ([], none) ∧
    S3BS.iterate_bucket_page_contents
        { Contents := none, NextContinuationToken := none } = [] := by
  refine ⟨rfl, ?_, rfl⟩
  have hne : (Except.error (S3BS.PyLookupErr.keyError "Contents") :
      Except S3BS.PyLookupErr (List S3BS.BlobMetadata × Option String)) ≠
      Except.ok ([], none) := by
    simp
  exact hne
